import Mathlib

/-!
Verification of the Claude-Desktop task-master core: a shallow embedding of
the provider-selection layer (ai-client-utils.js) and of the direct PRD-parse
orchestrator (parse-prd-direct.js), together with theorems settling the
frozen claims about the natural-language specification.

Conventions of the embedding:
* JavaScript `undefined`/missing values are `Option.none`; environment
  variables are `Option String`.
* JavaScript string truthiness (`!s` / `s || d`) is `optTruthy` / `jsOr`.
* `parseInt(s, 10)` and `parseFloat(s)` are `jsParseInt` / `jsParseFloat`,
  returning `none` for NaN.
* The file system is an explicit association list of files plus a list of
  directories; `parsePRDDirect` threads it (and the mutable process
  environment) explicitly.
* `new Date().toISOString().split(...)[0]` is a `today : String` parameter.
-/

/-- JavaScript truthiness of a possibly-missing string: `undefined`, `null`
and the empty string are falsy, every other string is truthy. -/
def optTruthy : Option String → Bool
  | none => false
  | some s => !s.isEmpty

/-- JavaScript `a || b` on possibly-missing strings: the left operand when it
is truthy, otherwise the right operand. -/
def jsOr (a b : Option String) : Option String :=
  if optTruthy a then a else b

/-- Decimal digits to a natural number (leading-digit accumulator). -/
def digitsToNat : List Char → Nat → Nat
  | [], acc => acc
  | c :: cs, acc => digitsToNat cs (acc * 10 + (c.toNat - 48))

/-- The leading run of decimal digits of a character list, `none` when the
list does not start with a digit (JavaScript parseInt yielding NaN). -/
def leadingNat (cs : List Char) : Option Nat :=
  let ds := cs.takeWhile Char.isDigit
  if ds.isEmpty then none else some (digitsToNat ds 0)

/-- Characters skipped by JavaScript numeric parsing before the sign. -/
def isJsSpace (c : Char) : Bool :=
  c == ' ' || c == '\t' || c == '\n' || c == '\r'

/-- JavaScript `parseInt(s, 10)`: skip leading whitespace, read an optional
sign and then the leading run of decimal digits; `none` models NaN. -/
def jsParseInt (s : String) : Option Int :=
  match s.data.dropWhile isJsSpace with
  | '-' :: rest => (leadingNat rest).map (fun n => -(n : Int))
  | '+' :: rest => (leadingNat rest).map (fun n => (n : Int))
  | rest => (leadingNat rest).map (fun n => (n : Int))

/-- Value of an integer part together with a fractional digit list. -/
def fracValue (intPart : Nat) (frac : List Char) : Rat :=
  (intPart : Rat) + (digitsToNat frac 0 : Rat) / ((10 : Rat) ^ frac.length)

/-- JavaScript `parseFloat(s)` restricted to plain decimal literals (an
optional sign, digits, an optional point and fractional digits); exponent
notation is not used by any configuration value in scope. `none` models
NaN. -/
def jsParseFloat (s : String) : Option Rat :=
  let core : List Char → Option Rat := fun cs =>
    let intDs := cs.takeWhile Char.isDigit
    let rest := cs.dropWhile Char.isDigit
    let fracDs :=
      match rest with
      | '.' :: tl => tl.takeWhile Char.isDigit
      | _ => []
    if intDs.isEmpty && fracDs.isEmpty then none
    else some (fracValue (digitsToNat intDs 0) fracDs)
  match s.data.dropWhile isJsSpace with
  | '-' :: rest => (core rest).map (fun q => -q)
  | '+' :: rest => core rest
  | rest => core rest

/-- Per-request session environment (`session.env` in the source); every
field is a possibly-missing environment-variable string. -/
structure SessionEnv where
  claudeDesktop : Option String := none
  anthropicKey : Option String := none
  perplexityKey : Option String := none
  model : Option String := none
  maxTokens : Option String := none
  temperature : Option String := none
deriving Repr, DecidableEq

/-- Ambient process environment (`process.env`), restricted to the keys the
core reads. -/
structure ProcessEnv where
  claudeDesktop : Option String := none
  anthropicKey : Option String := none
  perplexityKey : Option String := none
deriving Repr, DecidableEq

/-- The repeated source expression
`process.env.CLAUDE_DESKTOP === 'true' || session?.env?.CLAUDE_DESKTOP === 'true'`. -/
def usingClaudeDesktop (penv : ProcessEnv) (session : Option SessionEnv) : Bool :=
  (penv.claudeDesktop == some "true") ||
    ((session.bind SessionEnv.claudeDesktop) == some "true")

/-- The execution mode of the spec: direct generation versus a real
provider-backed call. -/
inductive ExecutionMode
  | DirectGeneration
  | ProviderBacked
deriving Repr, DecidableEq

/-- The mode resolution the source performs (identically) at the top of
`getAnthropicClientForMCP`, `getPerplexityClientForMCP` and
`getBestAvailableAIModel`. -/
def resolveMode (penv : ProcessEnv) (session : Option SessionEnv) : ExecutionMode :=
  if usingClaudeDesktop penv session then ExecutionMode.DirectGeneration
  else ExecutionMode.ProviderBacked

/-- A `MockAnthropicClient` instance: constructed bare in Claude-Desktop
mode, or carrying the discovered API key otherwise. -/
inductive AnthropicClient
  | mockDesktop
  | mockWithKey (apiKey : String)
deriving Repr, DecidableEq

/-- A `MockPerplexityClient` instance. -/
inductive PerplexityClient
  | mockDesktop
  | mockWithKey (apiKey : String)
deriving Repr, DecidableEq

/-- `getAnthropicClientForMCP(session)`: Desktop mode returns the bare mock
client; otherwise an API key must be present (session over process) or the
function throws. -/
def getAnthropicClientForMCP (penv : ProcessEnv) (session : Option SessionEnv) :
    Except String AnthropicClient :=
  if usingClaudeDesktop penv session then
    Except.ok AnthropicClient.mockDesktop
  else
    let apiKey := jsOr (session.bind SessionEnv.anthropicKey) penv.anthropicKey
    if optTruthy apiKey then
      Except.ok (AnthropicClient.mockWithKey (apiKey.getD ""))
    else
      Except.error "ANTHROPIC_API_KEY not found in session environment or process.env. Set CLAUDE_DESKTOP=true to use Claude Desktop mode."

/-- `getPerplexityClientForMCP(session)`: same shape as the Anthropic
variant, keyed on PERPLEXITY_API_KEY. -/
def getPerplexityClientForMCP (penv : ProcessEnv) (session : Option SessionEnv) :
    Except String PerplexityClient :=
  if usingClaudeDesktop penv session then
    Except.ok PerplexityClient.mockDesktop
  else
    let apiKey := jsOr (session.bind SessionEnv.perplexityKey) penv.perplexityKey
    if optTruthy apiKey then
      Except.ok (PerplexityClient.mockWithKey (apiKey.getD ""))
    else
      Except.error "PERPLEXITY_API_KEY not found in session environment or process.env. Set CLAUDE_DESKTOP=true to use Claude Desktop mode."

/-- Tag of the selected provider (`type` in the returned object). -/
inductive ModelType
  | claude
  | perplexity
deriving Repr, DecidableEq

/-- The client carried inside a model selection. -/
inductive SelectedClient
  | anthropic (c : AnthropicClient)
  | perplexity (c : PerplexityClient)
deriving Repr, DecidableEq

/-- Result object of `getBestAvailableAIModel`. -/
structure ModelSelection where
  type : ModelType
  client : SelectedClient
deriving Repr, DecidableEq

/-- Options argument of `getBestAvailableAIModel`; `claudeOverloaded` is
destructured by the source but never used. -/
structure ModelOptions where
  requiresResearch : Bool := false
  claudeOverloaded : Bool := false
deriving Repr, DecidableEq

/-- `getBestAvailableAIModel(session, options)`: Desktop mode always selects
Claude; otherwise research requests opportunistically try Perplexity when a
key is visible, and Claude is the backstop, failing when no client can be
built. -/
def getBestAvailableAIModel (penv : ProcessEnv) (session : Option SessionEnv)
    (options : ModelOptions) : Except String ModelSelection :=
  if usingClaudeDesktop penv session then
    match getAnthropicClientForMCP penv session with
    | Except.ok c => Except.ok ⟨ModelType.claude, SelectedClient.anthropic c⟩
    | Except.error e => Except.error e
  else
    let defaultClaude : Except String ModelSelection :=
      match getAnthropicClientForMCP penv session with
      | Except.ok c => Except.ok ⟨ModelType.claude, SelectedClient.anthropic c⟩
      | Except.error _ =>
        Except.error "No AI models available. Please check your API keys or enable Claude Desktop mode."
    if options.requiresResearch &&
        optTruthy (jsOr (session.bind SessionEnv.perplexityKey) penv.perplexityKey) then
      match getPerplexityClientForMCP penv session with
      | Except.ok c => Except.ok ⟨ModelType.perplexity, SelectedClient.perplexity c⟩
      | Except.error _ => defaultClaude
    else
      defaultClaude

/-- Default model configuration (`DEFAULT_MODEL_CONFIG`). -/
structure ModelDefaults where
  model : String
  maxTokens : Int
  temperature : Rat
deriving Repr, DecidableEq

/-- The source constant `DEFAULT_MODEL_CONFIG`. -/
def DEFAULT_MODEL_CONFIG : ModelDefaults :=
  { model := "claude-3-7-sonnet-20250219", maxTokens := 64000, temperature := 0.2 }

/-- Resolved model configuration; `none` in a numeric field models the NaN
that `parseInt`/`parseFloat` produce on unparseable input. -/
structure ModelConfig where
  model : String
  maxTokens : Option Int
  temperature : Option Rat
deriving Repr, DecidableEq

/-- `getModelConfig(session, defaults)`: each field is
`parse(session value || default)`; when the session value is falsy the
parse runs on the numeric default itself, which round-trips to the default
value, so that case is written directly as the default. -/
def getModelConfig (session : Option SessionEnv)
    (defaults : ModelDefaults := DEFAULT_MODEL_CONFIG) : ModelConfig :=
  { model :=
      match session.bind SessionEnv.model with
      | some s => if s.isEmpty then defaults.model else s
      | none => defaults.model
    maxTokens :=
      match session.bind SessionEnv.maxTokens with
      | some s => if s.isEmpty then some defaults.maxTokens else jsParseInt s
      | none => some defaults.maxTokens
    temperature :=
      match session.bind SessionEnv.temperature with
      | some s => if s.isEmpty then some defaults.temperature else jsParseFloat s
      | none => some defaults.temperature }

/-- Parameters of a chat-message call (`messages.create`); only the fields
the mock client reads are modelled. -/
structure MessageParams where
  model : Option String := none
  stream : Bool := false
deriving Repr, DecidableEq

/-- `MockAnthropicClient.generateResponse`: always the sentinel string
signalling that generation is delegated to the caller. -/
def generateResponse (_params : MessageParams) : String :=
  "NOT_IMPLEMENTED"

/-- `params.model || "claude-3-7-sonnet-20250219"`. -/
def modelOrDefault (params : MessageParams) : String :=
  (jsOr params.model (some "claude-3-7-sonnet-20250219")).getD ""

/-- The chunking `response.match(/.{1,20}/g) || []`: consecutive slices of
at most `n` characters (the sentinel contains no newline, so the regex dot
never drops a character). -/
def stringChunks (n : Nat) (s : String) : List String :=
  (s.data.toChunks n).map List.asString

/-- One framed event of the mock stream. -/
inductive StreamEvent
  | contentBlockStart (blockType blockId : String)
  | contentBlockDelta (text : String) (index : Int)
  | contentBlockStop (blockType blockId : String)
  | messageStop (messageId text model : String)
deriving Repr, DecidableEq

/-- `MockAnthropicClient.createMockStream`: the finite event sequence the
async generator yields, with the artificial inter-chunk delay collapsed
(it is pacing, not content). -/
def createMockStream (params : MessageParams) : List StreamEvent :=
  let response := generateResponse params
  StreamEvent.contentBlockStart "text" "mock-block-id"
    :: ((stringChunks 20 response).map (fun c => StreamEvent.contentBlockDelta c 0)
      ++ [StreamEvent.contentBlockStop "text" "mock-block-id",
          StreamEvent.messageStop "mock-message-id" response (modelOrDefault params)])

/-- Result of `MockAnthropicClient.createMessages`: either the full mock
message or the mock stream. -/
inductive MessagesResult
  | message (messageId text model stopReason : String)
  | stream (events : List StreamEvent)
deriving Repr, DecidableEq

/-- `MockAnthropicClient.createMessages(params)`. -/
def createMessages (params : MessageParams) : MessagesResult :=
  if params.stream then
    MessagesResult.stream (createMockStream params)
  else
    MessagesResult.message "mock-message-id" (generateResponse params)
      (modelOrDefault params) "end_turn"

/-- The text content of a non-streaming `createMessages` result. -/
def MessagesResult.bodyText : MessagesResult → Option String
  | MessagesResult.message _ t _ _ => some t
  | MessagesResult.stream _ => none

/-- Result of `generateTasksFromPRD`: the delegate flag and the two
prompts. -/
structure GenerationRequestEnvelope where
  shouldBeHandledByClaudeDirectly : Bool
  systemPrompt : String
  userPrompt : String
deriving Repr, DecidableEq

/-- System-prompt template, text before the first task-count
interpolation. -/
def sysPromptP1 : String :=
  "You are an AI assistant tasked with breaking down a Product Requirements Document (PRD) into a set of sequential development tasks. Your goal is to create exactly "

/-- System-prompt template, between the first task-count interpolation and
the second one. -/
def sysPromptP2 : String :=
  " well-structured, actionable development tasks based on the PRD provided.\n\nFirst, carefully read and analyze the attached PRD\n\nBefore creating the task list, work through the following steps inside <prd_breakdown> tags in your thinking block:\n\n1. List the key components of the PRD\n2. Identify the main features and functionalities described\n3. Note any specific technical requirements or constraints mentioned\n4. Outline a high-level sequence of tasks that would be needed to implement the PRD\n\nConsider dependencies, maintainability, and the fact that you don\x27t have access to any existing codebase. Balance between providing detailed task descriptions and maintaining a high-level perspective.\n\nAfter your breakdown, create a JSON object containing an array of tasks and a metadata object. Each task should follow this structure:\n\n\x7b\n  \"id\": number,\n  \"title\": string,\n  \"description\": string,\n  \"status\": \"pending\",\n  \"dependencies\": number[] (IDs of tasks this depends on),\n  \"priority\": \"high\" | \"medium\" | \"low\",\n  \"details\": string (implementation details),\n  \"testStrategy\": string (validation approach)\n\x7d\n\nGuidelines for creating tasks:\n1. Number tasks from 1 to "

/-- System-prompt template, between the second task-count interpolation and
the third one (inside the metadata example). -/
def sysPromptP3 : String :=
  ".\n2. Make each task atomic and focused on a single responsibility.\n3. Order tasks logically, considering dependencies and implementation sequence.\n4. Start with setup and core functionality, then move to advanced features.\n5. Provide a clear validation/testing approach for each task.\n6. Set appropriate dependency IDs (tasks can only depend on lower-numbered tasks).\n7. Assign priority based on criticality and dependency order.\n8. Include detailed implementation guidance in the \"details\" field.\n9. Strictly adhere to any specific requirements for libraries, database schemas, frameworks, tech stacks, or other implementation details mentioned in the PRD.\n10. Fill in gaps left by the PRD while preserving all explicit requirements.\n11. Provide the most direct path to implementation, avoiding over-engineering.\n\nThe final output should be valid JSON with this structure:\n\n\x7b\n  \"tasks\": [\n    \x7b\n      \"id\": 1,\n      \"title\": \"Example Task Title\",\n      \"description\": \"Brief description of the task\",\n      \"status\": \"pending\",\n      \"dependencies\": [],\n      \"priority\": \"high\",\n      \"details\": \"Detailed implementation guidance\",\n      \"testStrategy\": \"Approach for validating this task\"\n    \x7d,\n    // ... more tasks ...\n  ],\n  \"metadata\": \x7b\n    \"projectName\": \"PRD Implementation\",\n    \"totalTasks\": "

/-- System-prompt template, between the task-count interpolation in the
metadata example and the source-file interpolation. -/
def sysPromptP4 : String :=
  ",\n    \"sourceFile\": \""

/-- System-prompt template, between the source-file interpolation and the
date interpolation. -/
def sysPromptP5 : String :=
  "\",\n    \"generatedAt\": \""

/-- System-prompt template, text after the date interpolation. -/
def sysPromptP6 : String :=
  "\"\n  \x7d\n\x7d\n\nRemember to provide comprehensive task details that are LLM-friendly, consider dependencies and maintainability carefully, and keep in mind that you don\x27t have the existing codebase as context. Aim for a balance between detailed guidance and high-level planning.\n\nYour response should be valid JSON only, with no additional explanation or comments."

/-- User-prompt template, text before the task-count interpolation. -/
def userPromptP1 : String :=
  "Here\x27s the Product Requirements Document (PRD) to break down into "

/-- User-prompt template, between the task-count interpolation and the
document text. -/
def userPromptP2 : String :=
  " tasks:\n\n"

/-- `generateTasksFromPRD(prdContent, prdPath, numTasks)`: builds the two
prompts and always signals that the caller (Claude) should perform the
generation. `today` stands for the date component of
`new Date().toISOString()`. -/
def generateTasksFromPRD (prdContent prdPath : String) (numTasks : Int)
    (today : String) : GenerationRequestEnvelope :=
  let systemPrompt :=
    sysPromptP1 ++ toString numTasks ++ sysPromptP2 ++ toString numTasks ++
      sysPromptP3 ++ toString numTasks ++ sysPromptP4 ++ prdPath ++
      sysPromptP5 ++ today ++ sysPromptP6
  { shouldBeHandledByClaudeDirectly := true
    systemPrompt := systemPrompt
    userPrompt := userPromptP1 ++ toString numTasks ++ userPromptP2 ++ prdContent }

/-- Split a character list at every slash (groups do not contain the
separators). -/
def splitOnSlash : List Char → List (List Char)
  | [] => [[]]
  | '/' :: rest => [] :: splitOnSlash rest
  | c :: rest =>
    match splitOnSlash rest with
    | [] => [[c]]
    | g :: gs => (c :: g) :: gs

/-- Rejoin slash-separated groups. -/
def joinSlash : List (List Char) → List Char
  | [] => []
  | [g] => g
  | g :: gs => g ++ '/' :: joinSlash gs

/-- `path.isAbsolute`: a POSIX path is absolute when it starts with a
slash. -/
def pathIsAbsolute (p : String) : Bool :=
  match p.data with
  | '/' :: _ => true
  | _ => false

/-- The source pattern
`path.isAbsolute(p) ? p : path.resolve(root, p)` for an absolute `root`:
an absolute path passes through, a relative one is joined onto the root. -/
def resolvePathAgainst (root p : String) : String :=
  if pathIsAbsolute p then p else root ++ "/" ++ p

/-- `path.dirname`: everything before the last slash, with the POSIX
special cases for slashless paths and for a parent that is the root. -/
def dirname (p : String) : String :=
  let parts := splitOnSlash p.data
  if parts.length ≤ 1 then "."
  else
    let joined := joinSlash parts.dropLast
    if joined.isEmpty then "/" else List.asString joined

/-- Explicit file-system state: regular files (path, content) and
directories. -/
structure FileSystem where
  files : List (String × String)
  dirs : List String
deriving Repr, DecidableEq

/-- `fs.existsSync`. -/
def FileSystem.existsSync (fs : FileSystem) (p : String) : Bool :=
  fs.files.any (fun kv => kv.fst == p) || fs.dirs.contains p

/-- `fs.readFileSync(p, 'utf8')`; `none` when `p` is not a regular file
(the JavaScript call would throw there). -/
def FileSystem.readFile (fs : FileSystem) (p : String) : Option String :=
  (fs.files.find? (fun kv => kv.fst == p)).map Prod.snd

/-- `fs.mkdirSync(p, { recursive: true })`, collapsed to recording the
directory itself (intermediate parents are irrelevant to every claim). -/
def FileSystem.mkdir (fs : FileSystem) (p : String) : FileSystem :=
  { fs with dirs := p :: fs.dirs }

/-- `fs.writeFileSync(p, c, 'utf8')`. -/
def FileSystem.writeFile (fs : FileSystem) (p c : String) : FileSystem :=
  { fs with files := (p, c) :: fs.files.filter (fun kv => kv.fst != p) }

/-- The `numTasks` argument: JavaScript lets a number or a string through
the same parameter. -/
inductive NumArg
  | num (n : Int)
  | str (s : String)
deriving Repr, DecidableEq

/-- JavaScript truthiness of the `numTasks` argument (`if (args.numTasks)`):
missing, the number 0 and the empty string are falsy. -/
def numArgTruthy : Option NumArg → Bool
  | none => false
  | some (NumArg.num n) => n != 0
  | some (NumArg.str s) => !s.isEmpty

/-- `${v}` for a `numTasks` argument inside a template literal. -/
def NumArg.render : NumArg → String
  | NumArg.num n => toString n
  | NumArg.str s => s

/-- Arguments of `parsePRDDirect`. -/
structure Args where
  projectRoot : Option String := none
  input : Option String := none
  output : Option String := none
  numTasks : Option NumArg := none
  append : Bool := false
deriving Repr, DecidableEq

/-- The `error` field of a failure envelope. -/
structure ErrorInfo where
  code : String
  message : String
  details : Option String := none
deriving Repr, DecidableEq

/-- The `data` payload of a success envelope: the delegate-to-caller shape
or the written-file shape (the latter is produced only by the unreachable
non-delegate branch). -/
inductive ResultData
  | delegate (message : String) (shouldBeHandledByClaudeDirectly : Bool)
      (systemPrompt userPrompt outputPath : String) (numTasks : Int) (append : Bool)
  | written (message : String) (taskCount : Int) (outputPath : String) (appended : Bool)
deriving Repr, DecidableEq

/-- The `numTasks`/`taskCount` field of a data payload. -/
def ResultData.numTasksOf : ResultData → Int
  | ResultData.delegate _ _ _ _ _ n _ => n
  | ResultData.written _ n _ _ => n

/-- The `outputPath` field of a data payload. -/
def ResultData.outputPathOf : ResultData → String
  | ResultData.delegate _ _ _ _ p _ _ => p
  | ResultData.written _ _ p _ => p

/-- The `userPrompt` field of a data payload, when present. -/
def ResultData.userPromptOf : ResultData → Option String
  | ResultData.delegate _ _ _ u _ _ _ => some u
  | ResultData.written _ _ _ _ => none

/-- The uniform result envelope. -/
structure ResultEnvelope where
  success : Bool
  data : Option ResultData := none
  error : Option ErrorInfo := none
  fromCache : Bool := false
deriving Repr, DecidableEq

/-- Everything one invocation of `parsePRDDirect` produces: the envelope,
the process environment and file system afterwards, and the warn-level log
lines emitted. -/
structure ParseOutcome where
  result : ResultEnvelope
  env : ProcessEnv
  fs : FileSystem
  warnings : List String
deriving Repr, DecidableEq

/-- The `error` code of an outcome, when the envelope is a failure. -/
def ParseOutcome.errorCode (o : ParseOutcome) : Option String :=
  o.result.error.map ErrorInfo.code

/-- The `data.numTasks` (or `data.taskCount`) of an outcome. -/
def ParseOutcome.dataNumTasks (o : ParseOutcome) : Option Int :=
  o.result.data.map ResultData.numTasksOf

/-- The `data.userPrompt` of an outcome. -/
def ParseOutcome.dataUserPrompt (o : ParseOutcome) : Option String :=
  o.result.data.bind ResultData.userPromptOf

/-- The mock sample output the unreachable non-delegate branch would write:
`JSON.stringify(sampleOutput, null, 2)` for one task record. -/
def renderTask (i : Nat) : String :=
  "    \x7b\n      \"id\": " ++ toString (i + 1) ++
    ",\n      \"title\": \"Task " ++ toString (i + 1) ++
    "\",\n      \"description\": \"Sample task description\",\n      \"status\": \"pending\",\n      \"dependencies\": [],\n      \"priority\": \"medium\",\n      \"details\": \"Sample task details\",\n      \"testStrategy\": \"Sample test strategy\"\n    \x7d"

/-- The mock sample output of the unreachable non-delegate branch
(`Array.from({length: numTasks})` yields no element for a non-positive
count). -/
def renderSampleOutput (numTasks : Int) (sourceFile today : String) : String :=
  let n := numTasks.toNat
  let tasksStr :=
    if n = 0 then "[]"
    else "[\n" ++ String.intercalate ",\n" ((List.range n).map renderTask) ++ "\n  ]"
  "\x7b\n  \"tasks\": " ++ tasksStr ++
    ",\n  \"metadata\": \x7b\n    \"projectName\": \"PRD Implementation\",\n    \"totalTasks\": " ++
    toString numTasks ++ ",\n    \"sourceFile\": \"" ++ sourceFile ++
    "\",\n    \"generatedAt\": \"" ++ today ++ "\"\n  \x7d\n\x7d"

/-- The numTasks parsing step of `parsePRDDirect`: a falsy argument
(missing, the number 0, the empty string) keeps the default 10 silently; a
truthy string is parsed with `parseInt`, falling back to 10 with a warn log
line when the parse yields NaN; a truthy number passes through. Returns the
resolved count and the warn lines emitted. -/
def parseNumTasksArg (v : Option NumArg) : Int × List String :=
  if numArgTruthy v then
    match v with
    | some (NumArg.str s) =>
      match jsParseInt s with
      | some n => (n, [])
      | none => (10, ["Invalid numTasks value: " ++ s ++ ". Using default: 10"])
    | some (NumArg.num n) => (n, [])
    | none => (10, [])
  else (10, [])

/-- Body of `parsePRDDirect` after the `process.env.CLAUDE_DESKTOP = 'true'`
assignment: validation, path resolution, numTasks parsing, prompt building
and the envelope construction, returning the envelope, the file system
afterwards and the warn log lines. `penv` is the already-updated process
environment. -/
def parsePRDBody (args : Args) (penv : ProcessEnv) (session : Option SessionEnv)
    (fs0 : FileSystem) (today : String) :
    ResultEnvelope × FileSystem × List String :=
  match getAnthropicClientForMCP penv session with
  | Except.error msg =>
    ({ success := false
       error := some { code := "AI_CLIENT_ERROR"
                       message := "Cannot initialize AI client: " ++ msg } },
      fs0, [])
  | Except.ok _ =>
    if !optTruthy args.projectRoot then
      ({ success := false
         error := some { code := "MISSING_PROJECT_ROOT"
                         message := "Project root is required for parsePRDDirect" } },
        fs0, [])
    else if !optTruthy args.input then
      ({ success := false
         error := some { code := "MISSING_INPUT_PATH"
                         message := "Input file path is required for parsePRDDirect" } },
        fs0, [])
    else if !optTruthy args.output then
      ({ success := false
         error := some { code := "MISSING_OUTPUT_PATH"
                         message := "Output file path is required for parsePRDDirect" } },
        fs0, [])
    else
      let projectRoot := args.projectRoot.getD ""
      let input := args.input.getD ""
      let output := args.output.getD ""
      let inputPath := resolvePathAgainst projectRoot input
      if !fs0.existsSync inputPath then
        ({ success := false
           error := some { code := "INPUT_FILE_NOT_FOUND"
                           message := "Input file not found: " ++ inputPath
                           details := some ("Checked path: " ++ inputPath ++
                             "\nProject root: " ++ projectRoot ++
                             "\nInput argument: " ++ input) } },
          fs0, [])
      else
        match fs0.readFile inputPath with
        | none =>
          -- readFileSync throws on a non-regular file; the catch-all maps
          -- the exception to PARSE_PRD_ERROR (the message text is the
          -- thrown message, abstracted here).
          ({ success := false
             error := some { code := "PARSE_PRD_ERROR"
                             message := "readFileSync failed: " ++ inputPath } },
            fs0, [])
        | some prdContent =>
          let outputPath := resolvePathAgainst projectRoot output
          let outputDir := dirname outputPath
          let fs1 := if fs0.existsSync outputDir then fs0 else fs0.mkdir outputDir
          let parsedNumTasks := parseNumTasksArg args.numTasks
          let numTasks := parsedNumTasks.fst
          let warns := parsedNumTasks.snd
          let append := args.append
          let _modelConfig := getModelConfig session
          let result := generateTasksFromPRD prdContent inputPath numTasks today
          if result.shouldBeHandledByClaudeDirectly then
            ({ success := true
               data := some (ResultData.delegate
                 "PRD parsing should be handled directly by Claude" true
                 result.systemPrompt result.userPrompt outputPath numTasks append) },
              fs1, warns)
          else
            let fs2 := fs1.writeFile outputPath (renderSampleOutput numTasks inputPath today)
            let actionVerb := if append then "appended" else "generated"
            ({ success := true
               data := some (ResultData.written
                 ("Successfully " ++ actionVerb ++ " " ++ toString numTasks ++ " tasks from PRD")
                 numTasks outputPath append) },
              fs2, warns)

/-- `parsePRDDirect(args, log, context)`: sets the process-wide
CLAUDE_DESKTOP flag to the string true, then runs the body on the updated
environment. -/
def parsePRDDirect (args : Args) (penv0 : ProcessEnv) (session : Option SessionEnv)
    (fs0 : FileSystem) (today : String) : ParseOutcome :=
  let penv : ProcessEnv := { penv0 with claudeDesktop := some "true" }
  let body := parsePRDBody args penv session fs0 today
  { result := body.fst, env := penv, fs := body.snd.fst, warnings := body.snd.snd }

/-- A string of length zero is the empty string. -/
theorem str_eq_empty_of_length (s : String) (h : s.length = 0) : s = "" := by
  cases s with
  | mk l => simp [String.length] at h; simp [h]

/-- An append whose left part is non-empty is non-empty. -/
theorem str_append_ne_empty (a b : String) (ha : a ≠ "") : a ++ b ≠ "" := by
  intro h
  apply ha
  apply str_eq_empty_of_length
  have hlen := congrArg String.length h
  rw [String.length_append] at hlen
  simp at hlen
  exact hlen.1

/-- C1: for every document text and task count, when the task-generation
result has the delegate flag set, both the system prompt and the user
prompt are non-empty, and the user prompt contains the full input document
text verbatim as a substring. -/
theorem generateTasksFromPRD_delegate_prompts (prdContent prdPath : String)
    (numTasks : Int) (today : String)
    (_hdel : (generateTasksFromPRD prdContent prdPath numTasks today).shouldBeHandledByClaudeDirectly = true) :
    (generateTasksFromPRD prdContent prdPath numTasks today).systemPrompt ≠ "" ∧
    (generateTasksFromPRD prdContent prdPath numTasks today).userPrompt ≠ "" ∧
    ∃ pre post,
      (generateTasksFromPRD prdContent prdPath numTasks today).userPrompt =
        pre ++ prdContent ++ post := by
  refine ⟨?_, ?_, ?_⟩
  · show sysPromptP1 ++ toString numTasks ++ sysPromptP2 ++ toString numTasks ++
      sysPromptP3 ++ toString numTasks ++ sysPromptP4 ++ prdPath ++
      sysPromptP5 ++ today ++ sysPromptP6 ≠ ""
    repeat apply str_append_ne_empty
    decide
  · show userPromptP1 ++ toString numTasks ++ userPromptP2 ++ prdContent ≠ ""
    repeat apply str_append_ne_empty
    decide
  · exact ⟨userPromptP1 ++ toString numTasks ++ userPromptP2, "",
      (String.append_empty _).symm⟩

/-- Witness for C1 at a concrete document, path, count and date. -/
theorem generateTasksFromPRD_delegate_prompts_witness :
    (generateTasksFromPRD "demo document" "/p/scripts/prd.txt" 5 "2025-01-01").systemPrompt ≠ "" ∧
    (generateTasksFromPRD "demo document" "/p/scripts/prd.txt" 5 "2025-01-01").userPrompt ≠ "" ∧
    ∃ pre post,
      (generateTasksFromPRD "demo document" "/p/scripts/prd.txt" 5 "2025-01-01").userPrompt =
        pre ++ "demo document" ++ post :=
  generateTasksFromPRD_delegate_prompts "demo document" "/p/scripts/prd.txt" 5 "2025-01-01" rfl

/-- C2: mode resolution returns DirectGeneration exactly when the ambient
flag or the session flag is the string true (logical OR, no override), and
ProviderBacked exactly when neither is. -/
theorem resolveMode_or_semantics (penv : ProcessEnv) (session : Option SessionEnv) :
    (resolveMode penv session = ExecutionMode.DirectGeneration ↔
      (penv.claudeDesktop = some "true" ∨
        session.bind SessionEnv.claudeDesktop = some "true")) ∧
    (resolveMode penv session = ExecutionMode.ProviderBacked ↔
      ¬(penv.claudeDesktop = some "true" ∨
        session.bind SessionEnv.claudeDesktop = some "true")) := by
  by_cases h1 : penv.claudeDesktop = some "true" <;>
    by_cases h2 : session.bind SessionEnv.claudeDesktop = some "true" <;>
      simp [resolveMode, usingClaudeDesktop, h1, h2]

/-- C3: whenever DirectGeneration mode is active, model selection returns
the Claude selection (with the bare desktop mock client), regardless of the
research requirement, the overload flag and any credentials. -/
theorem getBestAvailableAIModel_direct_claude (penv : ProcessEnv)
    (session : Option SessionEnv) (options : ModelOptions)
    (h : resolveMode penv session = ExecutionMode.DirectGeneration) :
    getBestAvailableAIModel penv session options =
      Except.ok { type := ModelType.claude
                  client := SelectedClient.anthropic AnthropicClient.mockDesktop } := by
  have hu : usingClaudeDesktop penv session = true := by
    cases hcase : usingClaudeDesktop penv session with
    | false => unfold resolveMode at h; rw [hcase] at h; simp at h
    | true => rfl
  simp [getBestAvailableAIModel, getAnthropicClientForMCP, hu]

/-- Witness for C3: Desktop mode with research requested, overload flagged
and no credentials anywhere still selects Claude. -/
theorem getBestAvailableAIModel_direct_claude_witness :
    getBestAvailableAIModel { claudeDesktop := some "true" } none
        { requiresResearch := true, claudeOverloaded := true } =
      Except.ok { type := ModelType.claude
                  client := SelectedClient.anthropic AnthropicClient.mockDesktop } :=
  getBestAvailableAIModel_direct_claude _ _ _ (by decide)

/-- C8: the mock streaming call yields a finite event sequence shaped as
one start event, the content-delta events, and the closing stop events
(content-block stop then message stop), and the concatenation of the delta
chunk texts equals the sentinel string that the non-streaming call
returns. -/
theorem createMockStream_shape (params : MessageParams) :
    ∃ deltas : List String,
      createMockStream params =
        StreamEvent.contentBlockStart "text" "mock-block-id"
          :: (deltas.map (fun c => StreamEvent.contentBlockDelta c 0)
            ++ [StreamEvent.contentBlockStop "text" "mock-block-id",
                StreamEvent.messageStop "mock-message-id" (generateResponse params)
                  (modelOrDefault params)]) ∧
      String.join deltas = generateResponse params ∧
      (createMessages { model := params.model, stream := false }).bodyText =
        some (generateResponse params) :=
  ⟨stringChunks 20 "NOT_IMPLEMENTED", rfl, rfl, rfl⟩

/-- A non-empty string has `isEmpty = false`. -/
theorem isEmpty_false_of_ne (s : String) (h : s ≠ "") : s.isEmpty = false := by
  cases hc : s.isEmpty with
  | false => rfl
  | true => exact absurd ((String.isEmpty_iff s).mp hc) h

/-- C6 (amended): model-configuration resolution is total and prefers a
truthy session value field-by-field; a numeric field whose session value is
absent or empty resolves to the default, while a non-empty session value is
parsed and an unparseable one yields NaN (modelled `none`), not the
default. -/
theorem getModelConfig_field_resolution (session : Option SessionEnv)
    (defaults : ModelDefaults) :
    (optTruthy (session.bind SessionEnv.model) = false →
      (getModelConfig session defaults).model = defaults.model) ∧
    (∀ s, session.bind SessionEnv.model = some s → s ≠ "" →
      (getModelConfig session defaults).model = s) ∧
    (optTruthy (session.bind SessionEnv.maxTokens) = false →
      (getModelConfig session defaults).maxTokens = some defaults.maxTokens) ∧
    (∀ s, session.bind SessionEnv.maxTokens = some s → s ≠ "" →
      (getModelConfig session defaults).maxTokens = jsParseInt s) ∧
    (optTruthy (session.bind SessionEnv.temperature) = false →
      (getModelConfig session defaults).temperature = some defaults.temperature) ∧
    (∀ s, session.bind SessionEnv.temperature = some s → s ≠ "" →
      (getModelConfig session defaults).temperature = jsParseFloat s) := by
  refine ⟨?_, ?_, ?_, ?_, ?_, ?_⟩
  · intro h
    cases hm : session.bind SessionEnv.model with
    | none => simp [getModelConfig, hm]
    | some s =>
      rw [hm] at h
      simp [optTruthy] at h
      simp [getModelConfig, hm, h]
  · intro s hm hs
    simp [getModelConfig, hm, isEmpty_false_of_ne s hs]
  · intro h
    cases hm : session.bind SessionEnv.maxTokens with
    | none => simp [getModelConfig, hm]
    | some s =>
      rw [hm] at h
      simp [optTruthy] at h
      simp [getModelConfig, hm, h]
  · intro s hm hs
    simp [getModelConfig, hm, isEmpty_false_of_ne s hs]
  · intro h
    cases hm : session.bind SessionEnv.temperature with
    | none => simp [getModelConfig, hm]
    | some s =>
      rw [hm] at h
      simp [optTruthy] at h
      simp [getModelConfig, hm, h]
  · intro s hm hs
    simp [getModelConfig, hm, isEmpty_false_of_ne s hs]

/-- Witness for the amended C6: defaults apply with no session, and a
parseable session value is parsed. -/
theorem getModelConfig_field_resolution_witness :
    (getModelConfig none DEFAULT_MODEL_CONFIG).model = DEFAULT_MODEL_CONFIG.model ∧
    (getModelConfig (some { maxTokens := some "1234" }) DEFAULT_MODEL_CONFIG).maxTokens =
      jsParseInt "1234" := by
  constructor
  · exact (getModelConfig_field_resolution none DEFAULT_MODEL_CONFIG).1 (by decide)
  · exact (getModelConfig_field_resolution (some { maxTokens := some "1234" })
      DEFAULT_MODEL_CONFIG).2.2.2.1 "1234" rfl (by decide)

/-- Session environment refuting C6 as stated: a non-empty unparseable
numeric session value. -/
def c6Session : SessionEnv := { maxTokens := some "abc" }

/-- Counterexample to C6 as stated: with the session value maxTokens set to
the string abc, the resolved maxTokens is NaN (modelled `none`), not the
default value 64000 the claim promises. -/
theorem getModelConfig_parse_failure_is_nan :
    (getModelConfig (some c6Session) DEFAULT_MODEL_CONFIG).maxTokens = none ∧
    (getModelConfig (some c6Session) DEFAULT_MODEL_CONFIG).maxTokens ≠
      some DEFAULT_MODEL_CONFIG.maxTokens := by
  have h0 : (getModelConfig (some c6Session) DEFAULT_MODEL_CONFIG).maxTokens = none := rfl
  refine ⟨h0, ?_⟩
  rw [h0]
  simp

/-- C9 (amended): every invocation of the parse operation writes the
process-wide CLAUDE_DESKTOP flag, unconditionally setting it to the string
true before reading it; every other process-environment key is preserved. -/
theorem parsePRDDirect_sets_desktop_flag (args : Args) (penv : ProcessEnv)
    (session : Option SessionEnv) (fs : FileSystem) (today : String) :
    (parsePRDDirect args penv session fs today).env =
      { claudeDesktop := some "true"
        anthropicKey := penv.anthropicKey
        perplexityKey := penv.perplexityKey } :=
  rfl

/-- Initial process environment for the C9 counterexample: the
direct-generation flag starts out as the string false. -/
def c9InitialEnv : ProcessEnv := { claudeDesktop := some "false" }

/-- Arguments for the C9 counterexample. -/
def c9ArgsSet : Args :=
  { projectRoot := some "/p", input := some "scripts/prd.txt"
    output := some "tasks/tasks.json" }

/-- File system for the C9 counterexample. -/
def c9Fs : FileSystem := ⟨[("/p/scripts/prd.txt", "sample doc")], []⟩

/-- Counterexample to C9 as stated: an invocation of the parse operation
changes the process-wide execution-mode flag from the string false to the
string true, so its value after the invocation differs from its value
before. -/
theorem parsePRDDirect_flag_not_preserved :
    (parsePRDDirect c9ArgsSet c9InitialEnv none c9Fs "2025-01-01").env.claudeDesktop =
      some "true" ∧
    c9InitialEnv.claudeDesktop = some "false" ∧
    (parsePRDDirect c9ArgsSet c9InitialEnv none c9Fs "2025-01-01").env.claudeDesktop ≠
      c9InitialEnv.claudeDesktop := by
  refine ⟨rfl, rfl, ?_⟩
  intro h
  simp [parsePRDDirect, c9InitialEnv] at h

/-- A path with a readable file content exists on the file system. -/
theorem existsSync_of_readFile (fs : FileSystem) (p c : String)
    (h : fs.readFile p = some c) : fs.existsSync p = true := by
  unfold FileSystem.existsSync
  cases hf : fs.files.find? (fun kv => kv.fst == p) with
  | none => unfold FileSystem.readFile at h; rw [hf] at h; simp at h
  | some kv =>
    have hpred := List.find?_some hf
    have hmem := List.mem_of_find?_eq_some hf
    have hany : fs.files.any (fun kv => kv.fst == p) = true :=
      List.any_eq_true.mpr ⟨kv, hmem, hpred⟩
    rw [hany]
    rfl

/-- The request builder always signals delegation to the caller. -/
theorem generateTasksFromPRD_delegates (prdContent prdPath : String)
    (numTasks : Int) (today : String) :
    (generateTasksFromPRD prdContent prdPath numTasks today).shouldBeHandledByClaudeDirectly =
      true :=
  rfl

/-- C5: the parse operation validates fail-fast in the fixed order
projectRoot, input, output, input-file existence, returning
MISSING_PROJECT_ROOT, MISSING_INPUT_PATH, MISSING_OUTPUT_PATH and
INPUT_FILE_NOT_FOUND (with diagnostic detail naming the checked path)
respectively; each full-envelope equality shows that no later failure code
is returned when an earlier condition holds. -/
theorem parsePRDDirect_validation_order (args : Args) (penv : ProcessEnv)
    (session : Option SessionEnv) (fs : FileSystem) (today : String) :
    (optTruthy args.projectRoot = false →
      (parsePRDDirect args penv session fs today).result =
        { success := false
          data := none
          error := some { code := "MISSING_PROJECT_ROOT"
                          message := "Project root is required for parsePRDDirect"
                          details := none }
          fromCache := false }) ∧
    (optTruthy args.projectRoot = true → optTruthy args.input = false →
      (parsePRDDirect args penv session fs today).result =
        { success := false
          data := none
          error := some { code := "MISSING_INPUT_PATH"
                          message := "Input file path is required for parsePRDDirect"
                          details := none }
          fromCache := false }) ∧
    (optTruthy args.projectRoot = true → optTruthy args.input = true →
      optTruthy args.output = false →
      (parsePRDDirect args penv session fs today).result =
        { success := false
          data := none
          error := some { code := "MISSING_OUTPUT_PATH"
                          message := "Output file path is required for parsePRDDirect"
                          details := none }
          fromCache := false }) ∧
    (optTruthy args.projectRoot = true → optTruthy args.input = true →
      optTruthy args.output = true →
      fs.existsSync (resolvePathAgainst (args.projectRoot.getD "") (args.input.getD "")) = false →
      (parsePRDDirect args penv session fs today).result =
        { success := false
          data := none
          error := some { code := "INPUT_FILE_NOT_FOUND"
                          message := "Input file not found: " ++
                            resolvePathAgainst (args.projectRoot.getD "") (args.input.getD "")
                          details := some ("Checked path: " ++
                            resolvePathAgainst (args.projectRoot.getD "") (args.input.getD "") ++
                            "\nProject root: " ++ args.projectRoot.getD "" ++
                            "\nInput argument: " ++ args.input.getD "") }
          fromCache := false }) := by
  refine ⟨fun h1 => ?_, fun h1 h2 => ?_, fun h1 h2 h3 => ?_, fun h1 h2 h3 h4 => ?_⟩
  · simp [parsePRDDirect, parsePRDBody, getAnthropicClientForMCP, usingClaudeDesktop, h1]
  · simp [parsePRDDirect, parsePRDBody, getAnthropicClientForMCP, usingClaudeDesktop, h1, h2]
  · simp [parsePRDDirect, parsePRDBody, getAnthropicClientForMCP, usingClaudeDesktop,
      h1, h2, h3]
  · simp [parsePRDDirect, parsePRDBody, getAnthropicClientForMCP, usingClaudeDesktop,
      h1, h2, h3, h4]

/-- Witness for C5: each of the four validation failures observed on a
concrete argument set (missing root; missing input; missing output; input
file absent from an empty file system). -/
theorem parsePRDDirect_validation_order_witness :
    (parsePRDDirect {} {} none ⟨[], []⟩ "2025-01-01").result =
      { success := false
        data := none
        error := some { code := "MISSING_PROJECT_ROOT"
                        message := "Project root is required for parsePRDDirect"
                        details := none }
        fromCache := false } ∧
    (parsePRDDirect { projectRoot := some "/p" } {} none ⟨[], []⟩ "2025-01-01").result =
      { success := false
        data := none
        error := some { code := "MISSING_INPUT_PATH"
                        message := "Input file path is required for parsePRDDirect"
                        details := none }
        fromCache := false } ∧
    (parsePRDDirect { projectRoot := some "/p", input := some "x" } {} none
        ⟨[], []⟩ "2025-01-01").result =
      { success := false
        data := none
        error := some { code := "MISSING_OUTPUT_PATH"
                        message := "Output file path is required for parsePRDDirect"
                        details := none }
        fromCache := false } ∧
    (parsePRDDirect { projectRoot := some "/p", input := some "x", output := some "y" }
        {} none ⟨[], []⟩ "2025-01-01").result =
      { success := false
        data := none
        error := some { code := "INPUT_FILE_NOT_FOUND"
                        message := "Input file not found: " ++ resolvePathAgainst "/p" "x"
                        details := some ("Checked path: " ++ resolvePathAgainst "/p" "x" ++
                          "\nProject root: " ++ "/p" ++ "\nInput argument: " ++ "x") }
        fromCache := false } :=
  ⟨(parsePRDDirect_validation_order {} {} none ⟨[], []⟩ "2025-01-01").1 (by decide),
   (parsePRDDirect_validation_order { projectRoot := some "/p" } {} none
      ⟨[], []⟩ "2025-01-01").2.1 (by decide) (by decide),
   (parsePRDDirect_validation_order { projectRoot := some "/p", input := some "x" }
      {} none ⟨[], []⟩ "2025-01-01").2.2.1 (by decide) (by decide) (by decide),
   (parsePRDDirect_validation_order
      { projectRoot := some "/p", input := some "x", output := some "y" }
      {} none ⟨[], []⟩ "2025-01-01").2.2.2 (by decide) (by decide) (by decide) (by decide)⟩

/-- C4: with a valid argument set whose input file exists, in
DirectGeneration mode, the parse operation leaves every file unchanged (in
particular it never creates or modifies the output file), succeeds, and the
returned delegate payload carries as outputPath exactly the resolved
absolute output path: an absolute output argument passed through, a
relative one resolved against the project root. -/
theorem parsePRDDirect_direct_no_write (args : Args) (penv : ProcessEnv)
    (session : Option SessionEnv) (fs : FileSystem) (today prdContent : String)
    (_hmode : resolveMode penv session = ExecutionMode.DirectGeneration)
    (h1 : optTruthy args.projectRoot = true)
    (h2 : optTruthy args.input = true)
    (h3 : optTruthy args.output = true)
    (hfile : fs.readFile (resolvePathAgainst (args.projectRoot.getD "")
      (args.input.getD "")) = some prdContent) :
    (parsePRDDirect args penv session fs today).fs.files = fs.files ∧
    (parsePRDDirect args penv session fs today).result.success = true ∧
    ∃ sys usr nt,
      (parsePRDDirect args penv session fs today).result.data =
        some (ResultData.delegate "PRD parsing should be handled directly by Claude" true
          sys usr (resolvePathAgainst (args.projectRoot.getD "") (args.output.getD ""))
          nt args.append) := by
  have hex := existsSync_of_readFile fs _ prdContent hfile
  refine ⟨?_, ?_, ?_⟩
  · simp [parsePRDDirect, parsePRDBody, getAnthropicClientForMCP, usingClaudeDesktop,
      h1, h2, h3, hex, hfile, generateTasksFromPRD_delegates, FileSystem.mkdir]
    split <;> rfl
  · simp [parsePRDDirect, parsePRDBody, getAnthropicClientForMCP, usingClaudeDesktop,
      h1, h2, h3, hex, hfile, generateTasksFromPRD_delegates]
  · have hd : (parsePRDDirect args penv session fs today).result.data =
        some (ResultData.delegate "PRD parsing should be handled directly by Claude" true
          (generateTasksFromPRD prdContent
            (resolvePathAgainst (args.projectRoot.getD "") (args.input.getD ""))
            (parseNumTasksArg args.numTasks).fst today).systemPrompt
          (generateTasksFromPRD prdContent
            (resolvePathAgainst (args.projectRoot.getD "") (args.input.getD ""))
            (parseNumTasksArg args.numTasks).fst today).userPrompt
          (resolvePathAgainst (args.projectRoot.getD "") (args.output.getD ""))
          (parseNumTasksArg args.numTasks).fst args.append) := by
      simp [parsePRDDirect, parsePRDBody, getAnthropicClientForMCP, usingClaudeDesktop,
        h1, h2, h3, hex, hfile, generateTasksFromPRD_delegates]
    exact ⟨_, _, _, hd⟩

/-- Witness for C4: a concrete run with a relative output argument leaves
the file list unchanged and reports the output path resolved against the
project root. -/
theorem parsePRDDirect_direct_no_write_witness :
    (parsePRDDirect
        { projectRoot := some "/p", input := some "scripts/prd.txt"
          output := some "tasks/tasks.json" }
        { claudeDesktop := some "true" } none
        ⟨[("/p/scripts/prd.txt", "sample doc")], []⟩ "2025-01-01").fs.files =
      (⟨[("/p/scripts/prd.txt", "sample doc")], []⟩ : FileSystem).files ∧
    (parsePRDDirect
        { projectRoot := some "/p", input := some "scripts/prd.txt"
          output := some "tasks/tasks.json" }
        { claudeDesktop := some "true" } none
        ⟨[("/p/scripts/prd.txt", "sample doc")], []⟩ "2025-01-01").result.success = true ∧
    ∃ sys usr nt,
      (parsePRDDirect
          { projectRoot := some "/p", input := some "scripts/prd.txt"
            output := some "tasks/tasks.json" }
          { claudeDesktop := some "true" } none
          ⟨[("/p/scripts/prd.txt", "sample doc")], []⟩ "2025-01-01").result.data =
        some (ResultData.delegate "PRD parsing should be handled directly by Claude" true
          sys usr (resolvePathAgainst "/p" "tasks/tasks.json") nt false) :=
  parsePRDDirect_direct_no_write
    { projectRoot := some "/p", input := some "scripts/prd.txt"
      output := some "tasks/tasks.json" }
    { claudeDesktop := some "true" } none
    ⟨[("/p/scripts/prd.txt", "sample doc")], []⟩ "2025-01-01" "sample doc"
    (by decide) (by decide) (by decide) (by decide) (by decide)

/-- C7: with a valid argument set whose input file exists, the parse
operation never fails on the numTasks field: an omitted numTasks defaults
to 10 with no warn line logged, and a non-empty unparseable numTasks string
defaults to 10 with exactly one warn line logged. -/
theorem parsePRDDirect_numTasks_defaults (args : Args) (penv : ProcessEnv)
    (session : Option SessionEnv) (fs : FileSystem) (today prdContent : String)
    (h1 : optTruthy args.projectRoot = true)
    (h2 : optTruthy args.input = true)
    (h3 : optTruthy args.output = true)
    (hfile : fs.readFile (resolvePathAgainst (args.projectRoot.getD "")
      (args.input.getD "")) = some prdContent) :
    (args.numTasks = none →
      (parsePRDDirect args penv session fs today).result.success = true ∧
      (parsePRDDirect args penv session fs today).dataNumTasks = some 10 ∧
      (parsePRDDirect args penv session fs today).warnings = []) ∧
    (∀ s, args.numTasks = some (NumArg.str s) → s ≠ "" → jsParseInt s = none →
      (parsePRDDirect args penv session fs today).result.success = true ∧
      (parsePRDDirect args penv session fs today).dataNumTasks = some 10 ∧
      (parsePRDDirect args penv session fs today).warnings =
        ["Invalid numTasks value: " ++ s ++ ". Using default: 10"]) := by
  have hex := existsSync_of_readFile fs _ prdContent hfile
  constructor
  · intro hnt
    simp [parsePRDDirect, parsePRDBody, getAnthropicClientForMCP, usingClaudeDesktop,
      h1, h2, h3, hex, hfile, generateTasksFromPRD_delegates, hnt,
      parseNumTasksArg, numArgTruthy, ParseOutcome.dataNumTasks, ResultData.numTasksOf]
  · intro s hnt hs hparse
    simp [parsePRDDirect, parsePRDBody, getAnthropicClientForMCP, usingClaudeDesktop,
      h1, h2, h3, hex, hfile, generateTasksFromPRD_delegates, hnt,
      parseNumTasksArg, numArgTruthy, isEmpty_false_of_ne s hs, hparse,
      ParseOutcome.dataNumTasks, ResultData.numTasksOf]

/-- Witness for C7: an omitted numTasks gives 10 with no warning, and the
unparseable string abc gives 10 with exactly the one warning. -/
theorem parsePRDDirect_numTasks_defaults_witness :
    ((parsePRDDirect
        { projectRoot := some "/p", input := some "scripts/prd.txt"
          output := some "tasks/tasks.json" }
        {} none ⟨[("/p/scripts/prd.txt", "sample doc")], []⟩ "2025-01-01").result.success = true ∧
      (parsePRDDirect
        { projectRoot := some "/p", input := some "scripts/prd.txt"
          output := some "tasks/tasks.json" }
        {} none ⟨[("/p/scripts/prd.txt", "sample doc")], []⟩ "2025-01-01").dataNumTasks = some 10 ∧
      (parsePRDDirect
        { projectRoot := some "/p", input := some "scripts/prd.txt"
          output := some "tasks/tasks.json" }
        {} none ⟨[("/p/scripts/prd.txt", "sample doc")], []⟩ "2025-01-01").warnings = []) ∧
    ((parsePRDDirect
        { projectRoot := some "/p", input := some "scripts/prd.txt"
          output := some "tasks/tasks.json", numTasks := some (NumArg.str "abc") }
        {} none ⟨[("/p/scripts/prd.txt", "sample doc")], []⟩ "2025-01-01").result.success = true ∧
      (parsePRDDirect
        { projectRoot := some "/p", input := some "scripts/prd.txt"
          output := some "tasks/tasks.json", numTasks := some (NumArg.str "abc") }
        {} none ⟨[("/p/scripts/prd.txt", "sample doc")], []⟩ "2025-01-01").dataNumTasks = some 10 ∧
      (parsePRDDirect
        { projectRoot := some "/p", input := some "scripts/prd.txt"
          output := some "tasks/tasks.json", numTasks := some (NumArg.str "abc") }
        {} none ⟨[("/p/scripts/prd.txt", "sample doc")], []⟩ "2025-01-01").warnings =
        ["Invalid numTasks value: " ++ "abc" ++ ". Using default: 10"]) :=
  ⟨(parsePRDDirect_numTasks_defaults
      { projectRoot := some "/p", input := some "scripts/prd.txt"
        output := some "tasks/tasks.json" }
      {} none ⟨[("/p/scripts/prd.txt", "sample doc")], []⟩ "2025-01-01" "sample doc"
      (by decide) (by decide) (by decide) (by decide)).1 rfl,
   (parsePRDDirect_numTasks_defaults
      { projectRoot := some "/p", input := some "scripts/prd.txt"
        output := some "tasks/tasks.json", numTasks := some (NumArg.str "abc") }
      {} none ⟨[("/p/scripts/prd.txt", "sample doc")], []⟩ "2025-01-01" "sample doc"
      (by decide) (by decide) (by decide) (by decide)).2 "abc" rfl (by decide) (by decide)⟩

/-- File system for the C10 scenario. -/
def c10Fs : FileSystem := ⟨[("/p/scripts/prd.txt", "sample doc")], []⟩

/-- Argument sets for the C10 scenario, varying only in numTasks. -/
def c10Args (nt : Option NumArg) : Args :=
  { projectRoot := some "/p", input := some "scripts/prd.txt"
    output := some "tasks/tasks.json", numTasks := nt }

/-- Empty ambient environment for the C10 scenario. -/
def c10Env : ProcessEnv := {}

/-- C10: numTasks coercion is asymmetric between number and string inputs:
the number 0 is falsy and defaults to 10, while the string 0 (and a
negative numeral string) parses and flows through unchanged, so the success
envelope and the generated user prompt can carry a non-positive task
count. -/
theorem parsePRDDirect_numTasks_zero_asymmetry :
    (parsePRDDirect (c10Args (some (NumArg.num 0))) c10Env none c10Fs
        "2025-01-01").dataNumTasks = some 10 ∧
    (parsePRDDirect (c10Args (some (NumArg.str "0"))) c10Env none c10Fs
        "2025-01-01").dataNumTasks = some 0 ∧
    (parsePRDDirect (c10Args (some (NumArg.str "-3"))) c10Env none c10Fs
        "2025-01-01").dataNumTasks = some (-3) ∧
    (parsePRDDirect (c10Args (some (NumArg.str "0"))) c10Env none c10Fs
        "2025-01-01").result.success = true ∧
    (parsePRDDirect (c10Args (some (NumArg.num 0))) c10Env none c10Fs
        "2025-01-01").warnings = [] ∧
    (parsePRDDirect (c10Args (some (NumArg.str "0"))) c10Env none c10Fs
        "2025-01-01").dataUserPrompt =
      some (userPromptP1 ++ "0" ++ userPromptP2 ++ "sample doc") := by
  decide
